import Mathlib

/-!
Verification of `ex_pairwise_average.py` (E-LPIPS pairwise barycenter example).

The development shallowly embeds the pieces of the script that the
specification talks about:

* the checkpoint scheduler (`checkpoints`, lines 153-157 of the source),
* the learning-rate schedule (`tf_step_f32`, `tf_learning_rate`, lines 105-112),
* the projection / clipping step (`tf_fix_X`, line 139) and 8-bit
  quantization (`tf_X_uint8`, line 102),
* the loss (`tf_loss`, lines 121-130),
* the main optimization loop with its checkpoint branch and the event
  trace it writes to disk (lines 162-206),
* the startup sequence (directory creation, image loading, shape check
  and the first PNG writes, lines 62-87),
* the argument computation for `set_scale_levels_by_image_size` (line 116),
* the shape of the array persisted by `np.save` (lines 204-206).

Machine floats are modelled by `ℚ` (and by `ℝ` for the learning-rate
formula, which uses `sqrt` and a fractional power); the optimizer update
and the perceptual metric are kept abstract, as the spec treats them as
black boxes.
-/

set_option maxRecDepth 8000

namespace ElpipsAvg

/-! ## Checkpoint scheduler (source lines 153-157) -/

/-- The fixed dense list of early checkpoints:
`checkpoints = [0, 1, 2, 3, 5, 7, 10, 15, 20, 30, 50, 70, 100, 150, 200, 300, 400, 600, 900, 1200, 1500]`. -/
def fixedCheckpoints : List ℕ :=
  [0, 1, 2, 3, 5, 7, 10, 15, 20, 30, 50, 70, 100, 150, 200, 300, 400, 600, 900, 1200, 1500]

/-- Python `range(start, stop, 500)` for natural bounds: the elements
`start, start + 500, start + 1000, ...` that are `< stop`. -/
def rangeStep500 (start stop : ℕ) : List ℕ :=
  List.range' start ((stop - start + 499) / 500) 500

/-- The checkpoint collection built by the source:
the fixed dense list, then `range(2000, 1 + steps, 500)`, then `steps`
itself.  The source turns the list into a Python `set`; membership in
this list models membership in that set. -/
def checkpoints (steps : ℕ) : List ℕ :=
  fixedCheckpoints ++ rangeStep500 2000 (steps + 1) ++ [steps]

lemma mem_rangeStep500 {start stop c : ℕ} :
    c ∈ rangeStep500 start stop ↔ ∃ k < (stop - start + 499) / 500, c = start + 500 * k := by
  unfold rangeStep500
  rw [List.mem_range']

lemma mem_checkpoints {steps c : ℕ} :
    c ∈ checkpoints steps ↔
      c ∈ fixedCheckpoints ∨ c ∈ rangeStep500 2000 (steps + 1) ∨ c = steps := by
  unfold checkpoints
  simp [List.mem_append]

lemma fixedCheckpoints_le (c : ℕ) (hc : c ∈ fixedCheckpoints) : c ≤ 1500 := by
  revert c
  decide

/-- Claim C1 (amended): for every `total_steps ≥ 0` the checkpoint collection
contains `0` and `total_steps`, and every element lies in
`[0, max 1500 total_steps]`; in particular every element lies in
`[0, total_steps]` whenever `total_steps ≥ 1500`, but for smaller step counts
the fixed dense early checkpoints reach up to `1500` and exceed
`total_steps`. -/
theorem checkpoints_contain_endpoints_bounded (n : ℕ) :
    (0 ∈ checkpoints n ∧ n ∈ checkpoints n) ∧
      ∀ c ∈ checkpoints n, c ≤ max 1500 n := by
  refine ⟨⟨?_, ?_⟩, ?_⟩
  · exact mem_checkpoints.2 (Or.inl (by decide))
  · exact mem_checkpoints.2 (Or.inr (Or.inr rfl))
  · intro c hc
    rcases mem_checkpoints.1 hc with h | h | h
    · exact le_trans (fixedCheckpoints_le c h) (le_max_left _ _)
    · obtain ⟨k, hk, rfl⟩ := mem_rangeStep500.1 h
      have : 2000 + 500 * k ≤ n := by omega
      exact le_trans this (le_max_right _ _)
    · subst h
      exact le_max_right _ _

/-- Witness for C1's amended theorem: applied at `total_steps = 10` and the
element `1500` of the checkpoint collection. -/
theorem checkpoints_contain_endpoints_bounded_witness :
    (0 ∈ checkpoints 10 ∧ 10 ∈ checkpoints 10) ∧
      1500 ∈ checkpoints 10 ∧ 1500 ≤ max 1500 10 :=
  ⟨(checkpoints_contain_endpoints_bounded 10).1,
    by decide,
    (checkpoints_contain_endpoints_bounded 10).2 1500 (by decide)⟩

/-- Counterexample to claim C1 as stated: for `total_steps = 0` the checkpoint
collection contains `1500`, which is not in `[0, 0]`. -/
theorem checkpoints_element_exceeds_steps :
    1500 ∈ checkpoints 0 ∧ ¬ 1500 ≤ 0 := by
  decide

/-- Claim C2 (amended): the scheduler is monotonic in coverage below the old
final step: for `s1 ≤ s2`, every checkpoint index `c < s1` that is in the
output for `total_steps = s1` is also in the output for `total_steps = s2`.
(The index `s1` itself, when included only as the final step of the shorter
run, may be absent from the output for `s2`.) -/
theorem checkpoints_coverage_monotone (s1 s2 c : ℕ) (h12 : s1 ≤ s2) (hc : c < s1)
    (hm : c ∈ checkpoints s1) : c ∈ checkpoints s2 := by
  rcases mem_checkpoints.1 hm with h | h | h
  · exact mem_checkpoints.2 (Or.inl h)
  · refine mem_checkpoints.2 (Or.inr (Or.inl ?_))
    obtain ⟨k, hk, rfl⟩ := mem_rangeStep500.1 h
    exact mem_rangeStep500.2 ⟨k, by omega, rfl⟩
  · omega

/-- Witness for C2's amended theorem: checkpoint `7 < 17` of the run with
`total_steps = 17` is still a checkpoint of the run with `total_steps = 20`. -/
theorem checkpoints_coverage_monotone_witness :
    (17 ≤ 20 ∧ 7 < 17 ∧ 7 ∈ checkpoints 17) ∧ 7 ∈ checkpoints 20 :=
  ⟨by decide, checkpoints_coverage_monotone 17 20 7 (by decide) (by decide) (by decide)⟩

/-- Counterexample to claim C2 as stated: `17 ≤ 17` and `17` is a checkpoint
of the run with `total_steps = 17` (it is the final step), but it is not a
checkpoint of the run with `total_steps = 20 ≥ 17`. -/
theorem checkpoints_monotonicity_fails_at_old_final :
    17 ≤ 20 ∧ 17 ≤ 17 ∧ 17 ∈ checkpoints 17 ∧ 17 ∉ checkpoints 20 := by
  decide

/-! ## Projection, quantization and loss (source lines 102, 121-130, 139)

The decision variable `tf_X` is a tensor of color channel values; we model
it as a flat list of rationals. -/

/-- `TOLERANCE = 0.00001` (source line 31). -/
def TOLERANCE : ℚ := 1 / 100000

/-- `tf.clip_by_value x lo hi`, elementwise clamping: values below `lo` become
`lo`, values above `hi` become `hi`, everything else is unchanged. -/
def clip_by_value (lo hi x : ℚ) : ℚ := if x < lo then lo else if hi < x then hi else x

/-- `tf_fix_X` (source line 139): clip every channel of `X` into
`[TOLERANCE, 1 - TOLERANCE]`. -/
def tf_fix_X (X : List ℚ) : List ℚ :=
  X.map (clip_by_value TOLERANCE (1 - TOLERANCE))

/-- `tf_X_uint8` (source line 102): `floor(255 * clip(x, 0, 1) + 0.5)`
per channel, cast to an 8-bit integer. -/
def tf_X_uint8 (X : List ℚ) : List ℕ :=
  X.map (fun x => (Int.floor (255 * clip_by_value 0 1 x + 1 / 2)).toNat)

/-- `tf_loss` (source lines 121-130): the metric returns one per-sample
distance vector per reference image; the source takes entry `0` of each
vector and sums the squares: `loss = d1² + d2²`.  The metric itself is the
abstract parameter `forward`. -/
def tf_loss (forward : List ℚ → List ℚ × List ℚ) (X : List ℚ) : ℚ :=
  ((forward X).1.headD 0) ^ 2 + ((forward X).2.headD 0) ^ 2

/-! ## The optimization loop (source lines 162-206)

The loop is modelled as a state machine over an abstract optimizer state
`σ` (the Adam moment estimates), an abstract metric `forward`, an abstract
learning-rate function `lrFn` of the persistent step counter `tf_step`,
and an abstract update `gradStep` performed by `tf_minimize`.  A single
combined `sess.run` is modelled with fetches reading the pre-update values
(the forward pass feeding the gradients runs before the variable update);
the separate `sess.run([tf_X])` on line 205 runs after the update and
therefore reads the post-step variable. -/

/-- One disk/console output of the loop: the progress line (loss and
learning rate), a PNG snapshot, or a raw `.npy` save.  The `.npy` payload is
the Python list `[X]` returned by `sess.run([tf_X])`, hence a list of
tensors. -/
inductive Event where
  | printE (i : ℕ) (loss lr : ℚ)
  | png (i : ℕ) (img : List ℕ)
  | npy (i : ℕ) (data : List (List ℚ))
  deriving DecidableEq

/-- The iteration index an event was emitted at. -/
def Event.idx : Event → ℕ
  | .printE i _ _ => i
  | .png i _ => i
  | .npy i _ => i

/-- The stateful context of the loop: the decision variable `tf_X`, the
persistent counter `tf_step`, and the opaque optimizer state. -/
structure LoopState (σ : Type) where
  X : List ℚ
  step : ℕ
  opt : σ

/-- The fixed data of a run: the step count and the abstract collaborators. -/
structure LoopParams (σ : Type) where
  steps : ℕ
  forward : List ℚ → List ℚ × List ℚ
  lrFn : ℕ → ℚ
  gradStep : σ → ℚ → List ℚ → σ × List ℚ

/-- One iteration of the main loop (source lines 162-206) at index `i`:
project `X`, then either just minimize (non-checkpoint branch) or fetch
loss / learning rate / 8-bit image together with the minimize op, write the
progress line and the PNG, and on multiples of 10000 fetch `tf_X` again
(now post-step) and save it wrapped in a one-element list. -/
def loopIter {σ : Type} (p : LoopParams σ) (i : ℕ) (s : LoopState σ) :
    LoopState σ × List Event :=
  let X1 := tf_fix_X s.X
  let step1 := s.step + 1
  let upd := p.gradStep s.opt (p.lrFn step1) X1
  let s1 : LoopState σ := ⟨upd.2, step1, upd.1⟩
  if i ∈ checkpoints p.steps then
    (s1, [Event.printE i (tf_loss p.forward X1) (p.lrFn s.step),
          Event.png i (tf_X_uint8 X1)]
         ++ (if i % 10000 = 0 then [Event.npy i [upd.2]] else []))
  else
    (s1, [])

/-- Run the loop over a list of iteration indices, accumulating the trace. -/
def runFrom {σ : Type} (p : LoopParams σ) : LoopState σ → List ℕ → LoopState σ × List Event
  | s, [] => (s, [])
  | s, i :: rest =>
    ((runFrom p (loopIter p i s).1 rest).1,
      (loopIter p i s).2 ++ (runFrom p (loopIter p i s).1 rest).2)

/-- The whole run: `for i in range(1 + args.steps)` (source line 162). -/
def runLoop {σ : Type} (p : LoopParams σ) (s0 : LoopState σ) : LoopState σ × List Event :=
  runFrom p s0 (List.range (p.steps + 1))

/-- The loop state as iteration `i` begins (before its projection). -/
def stateAt {σ : Type} (p : LoopParams σ) (s0 : LoopState σ) (i : ℕ) : LoopState σ :=
  (runFrom p s0 (List.range i)).1

lemma runFrom_append {σ : Type} (p : LoopParams σ) (l1 l2 : List ℕ) :
    ∀ s, runFrom p s (l1 ++ l2) =
      ((runFrom p (runFrom p s l1).1 l2).1,
        (runFrom p s l1).2 ++ (runFrom p (runFrom p s l1).1 l2).2) := by
  induction l1 with
  | nil => intro s; simp [runFrom]
  | cons i rest ih => intro s; simp [runFrom, ih, List.append_assoc]

lemma stateAt_succ {σ : Type} (p : LoopParams σ) (s0 : LoopState σ) (n : ℕ) :
    stateAt p s0 (n + 1) = (loopIter p n (stateAt p s0 n)).1 := by
  unfold stateAt
  rw [List.range_succ, runFrom_append]
  simp [runFrom]

lemma trace_range_succ {σ : Type} (p : LoopParams σ) (s0 : LoopState σ) (n : ℕ) :
    (runFrom p s0 (List.range (n + 1))).2 =
      (runFrom p s0 (List.range n)).2 ++ (loopIter p n (stateAt p s0 n)).2 := by
  rw [List.range_succ, runFrom_append]
  simp [runFrom, stateAt]

/-- Every event of the trace is produced by the `loopIter` of some iteration
index `i < n`, run from the state the loop reaches just before iteration `i`. -/
lemma mem_trace {σ : Type} (p : LoopParams σ) (s0 : LoopState σ) (e : Event) :
    ∀ n, e ∈ (runFrom p s0 (List.range n)).2 →
      ∃ i < n, e ∈ (loopIter p i (stateAt p s0 i)).2 := by
  intro n
  induction n with
  | zero => simp [runFrom]
  | succ n ih =>
    rw [trace_range_succ]
    intro h
    rcases List.mem_append.1 h with h | h
    · obtain ⟨i, hi, hmem⟩ := ih h
      exact ⟨i, Nat.lt_succ_of_lt hi, hmem⟩
    · exact ⟨n, Nat.lt_succ_self n, h⟩

lemma printE_of_loopIter {σ : Type} {p : LoopParams σ} {i j : ℕ} {s : LoopState σ}
    {lossv lrv : ℚ} (h : Event.printE j lossv lrv ∈ (loopIter p i s).2) :
    j = i ∧ lossv = tf_loss p.forward (tf_fix_X s.X) ∧ lrv = p.lrFn s.step := by
  by_cases h1 : i ∈ checkpoints p.steps
  · by_cases h2 : i % 10000 = 0 <;>
      simp [loopIter, h1, h2] at h <;>
      exact h
  · simp [loopIter, h1] at h

lemma png_of_loopIter {σ : Type} {p : LoopParams σ} {i j : ℕ} {s : LoopState σ}
    {img : List ℕ} (h : Event.png j img ∈ (loopIter p i s).2) :
    j = i ∧ img = tf_X_uint8 (tf_fix_X s.X) := by
  by_cases h1 : i ∈ checkpoints p.steps
  · by_cases h2 : i % 10000 = 0 <;>
      simp [loopIter, h1, h2] at h <;>
      exact h
  · simp [loopIter, h1] at h

lemma npy_of_loopIter {σ : Type} {p : LoopParams σ} {i j : ℕ} {s : LoopState σ}
    {d : List (List ℚ)} (h : Event.npy j d ∈ (loopIter p i s).2) :
    j = i ∧ d = [(loopIter p i s).1.X] := by
  by_cases h1 : i ∈ checkpoints p.steps
  · by_cases h2 : i % 10000 = 0
    · simp [loopIter, h1, h2] at h ⊢
      exact h
    · simp [loopIter, h1, h2] at h
  · simp [loopIter, h1] at h

lemma idx_of_loopIter {σ : Type} {p : LoopParams σ} {i : ℕ} {s : LoopState σ}
    {e : Event} (h : e ∈ (loopIter p i s).2) : e.idx = i := by
  by_cases h1 : i ∈ checkpoints p.steps
  · by_cases h2 : i % 10000 = 0
    · simp [loopIter, h1, h2] at h
      rcases h with h | h | h <;> subst h <;> rfl
    · simp [loopIter, h1, h2] at h
      rcases h with h | h <;> subst h <;> rfl
  · simp [loopIter, h1] at h

/-- A tiny concrete instantiation of the loop used to exercise the trace
theorems: one-channel image, zero metric, harmonic learning-rate function,
and an update that adds `1` to every channel (so a gradient step visibly
changes `X`). -/
def exampleParams : LoopParams Unit where
  steps := 0
  forward := fun _ => ([0], [0])
  lrFn := fun n => 1 / ((n : ℚ) + 1)
  gradStep := fun _ _ X => ((), X.map (fun v => v + 1))

/-- The initial state of the tiny concrete run: `X = [1/2]`, counter `0`. -/
def exampleInit : LoopState Unit := ⟨[1 / 2], 0, ()⟩

lemma clip_by_value_id {lo hi x : ℚ} (h1 : ¬ x < lo) (h2 : ¬ hi < x) :
    clip_by_value lo hi x = x := by
  simp [clip_by_value, h1, h2]

lemma tf_fix_X_example : tf_fix_X [1 / 2] = [1 / 2] := by
  simp only [tf_fix_X, List.map_cons, List.map_nil]
  rw [clip_by_value_id (by norm_num [TOLERANCE]) (by norm_num [TOLERANCE])]

lemma tf_X_uint8_example : tf_X_uint8 [1 / 2] = [128] := by
  simp only [tf_X_uint8, List.map_cons, List.map_nil]
  rw [clip_by_value_id (by norm_num) (by norm_num)]
  norm_num
  decide

lemma exampleLoop_iter :
    loopIter exampleParams 0 exampleInit =
      (⟨[3 / 2], 1, ()⟩, [Event.printE 0 0 1, Event.png 0 [128], Event.npy 0 [[3 / 2]]]) := by
  have hc : (0 : ℕ) ∈ checkpoints 0 := by decide
  simp only [loopIter, exampleParams, exampleInit, hc, if_pos, tf_fix_X_example,
    tf_X_uint8_example, tf_loss, Nat.zero_mod, reduceIte]
  norm_num

lemma exampleLoop_trace :
    (runLoop exampleParams exampleInit).2 =
      [Event.printE 0 0 1, Event.png 0 [128], Event.npy 0 [[3 / 2]]] := by
  have hr : List.range (exampleParams.steps + 1) = [0] := by decide
  simp [runLoop, hr, runFrom, exampleLoop_iter]

lemma exampleState0 : stateAt exampleParams exampleInit 0 = exampleInit := by
  simp [stateAt, runFrom]

lemma exampleState1_X : (stateAt exampleParams exampleInit 1).X = [3 / 2] := by
  rw [stateAt_succ, exampleState0, exampleLoop_iter]

/-- Claim C3 (amended): on every checkpoint iteration `i`, the loss, the
displayed learning rate and the 8-bit PNG snapshot all reflect the decision
variable (and step counter) after that iteration's projection and before its
gradient step; the raw `.npy` payload, however, is fetched by a separate
session run after the gradient step, so it holds the post-step variable
(the `X` of `stateAt (i+1)`), wrapped in a one-element list. -/
theorem snapshot_capture_order {σ : Type} (p : LoopParams σ) (s0 : LoopState σ) :
    (∀ i lossv lrv, Event.printE i lossv lrv ∈ (runLoop p s0).2 →
        lossv = tf_loss p.forward (tf_fix_X (stateAt p s0 i).X) ∧
        lrv = p.lrFn (stateAt p s0 i).step) ∧
    (∀ i img, Event.png i img ∈ (runLoop p s0).2 →
        img = tf_X_uint8 (tf_fix_X (stateAt p s0 i).X)) ∧
    (∀ i d, Event.npy i d ∈ (runLoop p s0).2 →
        d = [(stateAt p s0 (i + 1)).X]) := by
  refine ⟨?_, ?_, ?_⟩
  · intro i lossv lrv h
    obtain ⟨j, _, hmem⟩ := mem_trace p s0 _ _ h
    obtain ⟨rfl, h2, h3⟩ := printE_of_loopIter hmem
    exact ⟨h2, h3⟩
  · intro i img h
    obtain ⟨j, _, hmem⟩ := mem_trace p s0 _ _ h
    obtain ⟨rfl, h2⟩ := png_of_loopIter hmem
    exact h2
  · intro i d h
    obtain ⟨j, _, hmem⟩ := mem_trace p s0 _ _ h
    obtain ⟨rfl, h2⟩ := npy_of_loopIter hmem
    rw [h2, stateAt_succ]

/-- Witness for C3's amended theorem, on the tiny concrete run: the raw save
at checkpoint `0` holds the post-step variable `[3/2] = [1/2 + 1]`. -/
theorem snapshot_capture_order_witness :
    Event.npy 0 [[(3 : ℚ) / 2]] ∈ (runLoop exampleParams exampleInit).2 ∧
      [[(3 : ℚ) / 2]] = [(stateAt exampleParams exampleInit 1).X] :=
  ⟨by rw [exampleLoop_trace]; simp,
    (snapshot_capture_order exampleParams exampleInit).2.2 0 [[(3 : ℚ) / 2]]
      (by rw [exampleLoop_trace]; simp)⟩

/-- Counterexample to claim C3 as stated: in the tiny concrete run the
`.npy` payload written at checkpoint iteration `0` is `[[3/2]]`, which is not
the post-projection pre-step variable `tf_fix_X [1/2] = [1/2]` — the raw
save reflects the state after the gradient step. -/
theorem npy_saved_after_gradient_step :
    Event.npy 0 [[(3 : ℚ) / 2]] ∈ (runLoop exampleParams exampleInit).2 ∧
      [[(3 : ℚ) / 2]] ≠ [tf_fix_X (stateAt exampleParams exampleInit 0).X] := by
  refine ⟨by rw [exampleLoop_trace]; simp, ?_⟩
  rw [exampleState0]
  show _ ≠ [tf_fix_X [1 / 2]]
  rw [tf_fix_X_example]
  simp only [ne_eq, List.cons.injEq, and_true]
  norm_num

/-- Claim C5: the projection clamps every channel into
`[TOLERANCE, 1 - TOLERANCE]`, for arbitrary pre-projection values (also
values outside `[0, 1]` or exactly `0` or `1`); the loop applies `tf_fix_X`
at the start of every iteration, so this holds before every metric
evaluation and gradient computation. -/
theorem projection_into_tolerance_interval (X : List ℚ) :
    ∀ v ∈ tf_fix_X X, TOLERANCE ≤ v ∧ v ≤ 1 - TOLERANCE := by
  intro v hv
  simp only [tf_fix_X, List.mem_map] at hv
  obtain ⟨x, _, rfl⟩ := hv
  unfold clip_by_value
  split_ifs with h1 h2 <;> constructor <;>
    first
      | linarith
      | norm_num [TOLERANCE]

/-- Witness for C5: the pre-projection value `2` (outside `[0,1]`) is clamped
to `1 - TOLERANCE = 99999/100000`, which satisfies both bounds. -/
theorem projection_into_tolerance_interval_witness :
    (99999 / 100000 : ℚ) ∈ tf_fix_X [2] ∧
      (TOLERANCE ≤ (99999 / 100000 : ℚ) ∧ (99999 / 100000 : ℚ) ≤ 1 - TOLERANCE) :=
  ⟨by
      simp only [tf_fix_X, List.map_cons, List.map_nil, List.mem_singleton, clip_by_value,
        TOLERANCE]
      rw [if_neg (by norm_num), if_pos (by norm_num)]
      norm_num,
    projection_into_tolerance_interval [2] (99999 / 100000)
      (by
        simp only [tf_fix_X, List.map_cons, List.map_nil, List.mem_singleton, clip_by_value,
          TOLERANCE]
        rw [if_neg (by norm_num), if_pos (by norm_num)]
        norm_num)⟩

/-- Claim C7: every loss value the loop reports (and optimizes — the same
fetched tensor feeds the minimize op) is `d1² + d2²`, where `d1` and `d2`
are the index-`0` entries of the two per-sample distance vectors the metric
returns on the projected candidate. -/
theorem loss_is_sum_of_squared_distances {σ : Type} (p : LoopParams σ) (s0 : LoopState σ) :
    ∀ i lossv lrv, Event.printE i lossv lrv ∈ (runLoop p s0).2 →
      lossv = ((p.forward (tf_fix_X (stateAt p s0 i).X)).1.headD 0) ^ 2 +
        ((p.forward (tf_fix_X (stateAt p s0 i).X)).2.headD 0) ^ 2 := by
  intro i lossv lrv h
  obtain ⟨j, _, hmem⟩ := mem_trace p s0 _ _ h
  obtain ⟨rfl, h2, -⟩ := printE_of_loopIter hmem
  exact h2

/-- Witness for C7, on the tiny concrete run: the loss reported at
checkpoint `0` is `0 = 0² + 0²` since the zero metric returns `([0], [0])`. -/
theorem loss_is_sum_of_squared_distances_witness :
    Event.printE 0 0 1 ∈ (runLoop exampleParams exampleInit).2 ∧
      (0 : ℚ) = ((exampleParams.forward (tf_fix_X (stateAt exampleParams exampleInit 0).X)).1.headD 0) ^ 2 +
        ((exampleParams.forward (tf_fix_X (stateAt exampleParams exampleInit 0).X)).2.headD 0) ^ 2 :=
  ⟨by rw [exampleLoop_trace]; simp,
    loss_is_sum_of_squared_distances exampleParams exampleInit 0 0 1
      (by rw [exampleLoop_trace]; simp)⟩

/-- Claim C9: although the precomputed checkpoint collection always contains
the fixed early index `1500` (which can exceed `total_steps`), the loop only
visits the indices `0 .. total_steps`, so every PNG and `.npy` output the
run produces carries an iteration index `≤ total_steps`. -/
theorem outputs_only_within_loop_range {σ : Type} (p : LoopParams σ) (s0 : LoopState σ) :
    1500 ∈ checkpoints p.steps ∧
      ∀ e ∈ (runLoop p s0).2, e.idx ≤ p.steps := by
  constructor
  · exact mem_checkpoints.2 (Or.inl (by decide))
  · intro e he
    obtain ⟨i, hi, hmem⟩ := mem_trace p s0 _ _ he
    rw [idx_of_loopIter hmem]
    omega

/-- Witness for C9, on the tiny concrete run (`total_steps = 0`): the
progress-line event of iteration `0` has index `0 ≤ 0`, while `1500` is in
the checkpoint collection. -/
theorem outputs_only_within_loop_range_witness :
    1500 ∈ checkpoints 0 ∧ (Event.printE 0 0 1).idx ≤ 0 :=
  ⟨(outputs_only_within_loop_range exampleParams exampleInit).1,
    (outputs_only_within_loop_range exampleParams exampleInit).2 (Event.printE 0 0 1)
      (by rw [exampleLoop_trace]; simp)⟩

/-! ## Learning-rate schedule (source lines 105-112)

`tf_step_f32 = sqrt(100² + step²) - 100` (the gradual start), and
`tf_learning_rate = learning_rate / (1 + 0.02 * tf_step_f32 ** 0.75)`.
The float32 formula is modelled over the reals. -/

/-- The "gradual start" ramp `sqrt(100² + i²) - 100` (source line 109). -/
noncomputable def tf_step_f32 (i : ℕ) : ℝ :=
  Real.sqrt (100 ^ 2 + (i : ℝ) ^ 2) - 100

/-- The scheduled learning rate
`learning_rate / (1 + 0.02 * tf_step_f32 ** 0.75)` (source line 112). -/
noncomputable def tf_learning_rate (learning_rate : ℝ) (i : ℕ) : ℝ :=
  learning_rate / (1 + 0.02 * tf_step_f32 i ^ (0.75 : ℝ))

lemma tf_step_f32_nonneg (i : ℕ) : 0 ≤ tf_step_f32 i := by
  unfold tf_step_f32
  have hle : (100 : ℝ) ≤ Real.sqrt (100 ^ 2 + (i : ℝ) ^ 2) :=
    (Real.le_sqrt (show (0 : ℝ) ≤ 100 by norm_num) (by positivity)).2
      (le_add_of_nonneg_right (by positivity))
  linarith

lemma tf_step_f32_mono {i j : ℕ} (h : i ≤ j) : tf_step_f32 i ≤ tf_step_f32 j := by
  unfold tf_step_f32
  have hsq : ((i : ℝ)) ^ 2 ≤ ((j : ℝ)) ^ 2 := by
    have hij : (i : ℝ) ≤ (j : ℝ) := Nat.cast_le.2 h
    exact pow_le_pow_left (by positivity) hij 2
  have := Real.sqrt_le_sqrt (show (100 : ℝ) ^ 2 + (i : ℝ) ^ 2 ≤ 100 ^ 2 + (j : ℝ) ^ 2 by linarith)
  linarith

lemma tf_learning_rate_den_pos (k : ℕ) : (0 : ℝ) < 1 + 0.02 * tf_step_f32 k ^ (0.75 : ℝ) := by
  have h := Real.rpow_nonneg (tf_step_f32_nonneg k) (0.75 : ℝ)
  nlinarith

/-- Claim C4: for every positive base `learning_rate` and iteration indices
`i ≤ j`, the scheduled rate
`learning_rate / (1 + 0.02 * (sqrt(100² + i²) - 100)^0.75)` is strictly
positive and non-increasing in the iteration index. -/
theorem learning_rate_pos_nonincreasing (learning_rate : ℝ) (hlr : 0 < learning_rate)
    (i j : ℕ) (hij : i ≤ j) :
    0 < tf_learning_rate learning_rate i ∧
      tf_learning_rate learning_rate j ≤ tf_learning_rate learning_rate i := by
  constructor
  · exact div_pos hlr (tf_learning_rate_den_pos i)
  · unfold tf_learning_rate
    have hmono : tf_step_f32 i ^ (0.75 : ℝ) ≤ tf_step_f32 j ^ (0.75 : ℝ) :=
      Real.rpow_le_rpow (tf_step_f32_nonneg i) (tf_step_f32_mono hij) (by norm_num)
    rw [div_le_div_iff (tf_learning_rate_den_pos j) (tf_learning_rate_den_pos i)]
    nlinarith [hlr.le]

/-- Witness for C4: at base rate `1` and indices `2 ≤ 5`, the scheduled rate
at `2` is positive and the rate at `5` does not exceed it. -/
theorem learning_rate_pos_nonincreasing_witness :
    0 < (1 : ℝ) ∧
      (0 < tf_learning_rate 1 2 ∧ tf_learning_rate 1 5 ≤ tf_learning_rate 1 2) :=
  ⟨one_pos, learning_rate_pos_nonincreasing 1 one_pos 2 5 (by decide)⟩

/-! ## Startup sequence (source lines 62-87)

Directory creation, image loading (`[:, :, 0:3]` keeps only the first three
channels, `np.expand_dims` adds a batch axis), the shape check of the loop
on lines 73-75, and the first PNG writes on lines 77-87.  Only the shapes
matter here, so an input image is modelled by its path and its raw
`(height, width, channels)` shape. -/

/-- A loaded input image: its path and the shape of the decoded array. -/
structure InputImage where
  path : String
  height : ℕ
  width : ℕ
  channels : ℕ

/-- The shape of `load_image(path)[:, :, 0:3]`: channels are truncated to at
most the first three. -/
def slicedShape (img : InputImage) : List ℕ :=
  [img.height, img.width, min img.channels 3]

/-- The shape of `np.expand_dims(image, 0)`: a leading batch axis of one. -/
def batchShape (img : InputImage) : List ℕ :=
  1 :: slicedShape img

/-- The observable side effects of the startup sequence. -/
inductive SideEffect where
  | makeOutDir
  | writePng (name : String)
  deriving DecidableEq

/-- The startup sequence of the script (source lines 62-87): create the
output directory, load and slice both images, compare the batch-expanded
shapes (index `0` is compared with itself and never fails, so only the
second image can be reported), and — only if the shapes agree — write
`src_image.png`, `dest_image.png` and `initial_image.png`. -/
def startupRun (img1 img2 : InputImage) : List SideEffect × Except String Unit :=
  if batchShape img2 ≠ batchShape img1 then
    ([SideEffect.makeOutDir],
      Except.error ("Image " ++ img2.path ++ " has wrong shape."))
  else
    ([SideEffect.makeOutDir,
      SideEffect.writePng "src_image.png",
      SideEffect.writePng "dest_image.png",
      SideEffect.writePng "initial_image.png"],
      Except.ok ())

/-- Claim C8 (amended): when the two images' shapes differ after truncation
to the first three channels, the program fails with a fatal input error
naming the second image's path, and the only side effect that has occurred
is output-directory creation — no PNG has been written.  (A difference only
in raw channel count beyond the third channel is erased by the truncation
and is not detected; see the counterexample.) -/
theorem shape_mismatch_error_before_png (img1 img2 : InputImage)
    (h : slicedShape img1 ≠ slicedShape img2) :
    (startupRun img1 img2).1 = [SideEffect.makeOutDir] ∧
      (startupRun img1 img2).2 =
        Except.error ("Image " ++ img2.path ++ " has wrong shape.") := by
  have hb : batchShape img2 ≠ batchShape img1 := by
    simp only [batchShape, ne_eq, List.cons.injEq, true_and]
    exact fun hEq => h hEq.symm
  rw [startupRun, if_pos hb]
  exact ⟨rfl, rfl⟩

/-- Witness for C8's amended theorem: a `2×2` and a `3×2` RGB image differ in
sliced shape, and the startup aborts with only the directory creation done. -/
theorem shape_mismatch_error_before_png_witness :
    slicedShape ⟨"x.png", 2, 2, 3⟩ ≠ slicedShape ⟨"y.png", 3, 2, 3⟩ ∧
      ((startupRun ⟨"x.png", 2, 2, 3⟩ ⟨"y.png", 3, 2, 3⟩).1 = [SideEffect.makeOutDir] ∧
        (startupRun ⟨"x.png", 2, 2, 3⟩ ⟨"y.png", 3, 2, 3⟩).2 =
          Except.error ("Image " ++ (⟨"y.png", 3, 2, 3⟩ : InputImage).path ++
            " has wrong shape.")) :=
  ⟨by decide, shape_mismatch_error_before_png ⟨"x.png", 2, 2, 3⟩ ⟨"y.png", 3, 2, 3⟩ (by decide)⟩

/-- Counterexample to claim C8 as stated: a `4×4` RGBA image and a `4×4` RGB
image have different (raw input) shapes, yet the channel truncation
`[:, :, 0:3]` makes the compared shapes equal, so the startup does not fail
and proceeds to write PNG output. -/
theorem channel_mismatch_not_detected :
    ((⟨"a.png", 4, 4, 4⟩ : InputImage).height, (⟨"a.png", 4, 4, 4⟩ : InputImage).width,
        (⟨"a.png", 4, 4, 4⟩ : InputImage).channels) ≠
      ((⟨"b.png", 4, 4, 3⟩ : InputImage).height, (⟨"b.png", 4, 4, 3⟩ : InputImage).width,
        (⟨"b.png", 4, 4, 3⟩ : InputImage).channels) ∧
      (startupRun ⟨"a.png", 4, 4, 4⟩ ⟨"b.png", 4, 4, 3⟩).2 = Except.ok () ∧
      SideEffect.writePng "src_image.png" ∈ (startupRun ⟨"a.png", 4, 4, 4⟩ ⟨"b.png", 4, 4, 3⟩).1 := by
  have hb : ¬ (batchShape (⟨"b.png", 4, 4, 3⟩ : InputImage) ≠
      batchShape (⟨"a.png", 4, 4, 4⟩ : InputImage)) := by
    decide
  refine ⟨by decide, ?_, ?_⟩
  · rw [startupRun, if_neg hb]
  · rw [startupRun, if_neg hb]
    decide

/-! ## scale-level calibration arguments (source line 116)

After the shape-check loop, the loop variable `image` still holds the
second entry `images[1]`, whose shape is `(1, height, width, 3)`.  Line 116
calls `metric_config.set_scale_levels_by_image_size(image[0].shape[1],
image[0].shape[2])`: `image[0]` has shape `(height, width, 3)`, so the two
arguments passed are the width and the constant channel count `3` — not the
height and the width. -/

/-- The pair of arguments the source passes to
`set_scale_levels_by_image_size`, as a function of the (common) image
height and width. -/
def set_scale_levels_args (height width : ℕ) : ℕ × ℕ :=
  let imageShape : List ℕ := [1, height, width, 3]
  let innerShape : List ℕ := imageShape.tail
  (innerShape.getD 1 0, innerShape.getD 2 0)

/-- Claim C6 is wrong about the code (and the code wrong about the intent):
for `64×128` images the calibration call receives `(128, 3)` — the image
width and the channel count — instead of the height and width `(64, 128)`
the spec describes. -/
theorem scale_levels_receive_width_channels :
    set_scale_levels_args 64 128 = (128, 3) ∧ set_scale_levels_args 64 128 ≠ (64, 128) := by
  decide

/-! ## The raw save every 10000 iterations (source lines 204-206)

`X = sess.run([tf_X])` returns the Python list `[value]` of the single
fetched tensor, and `np.save` converts that list to an array with an extra
leading axis of length one on top of `tf_X`'s own batch axis. -/

/-- A rank-4 tensor (batch, height, width, channels) as nested lists. -/
abbrev Tensor4 := List (List (List (List ℚ)))

/-- `sess.run([tf_X])` (source line 205): a one-element list holding the
fetched value of `tf_X`. -/
def sess_run_tf_X (x : Tensor4) : List Tensor4 := [x]

/-- The numpy shape of a rank-1 array. -/
def shape1d (t : List ℚ) : List ℕ := [t.length]

/-- The numpy shape of a rank-2 array. -/
def shape2d (t : List (List ℚ)) : List ℕ := t.length :: shape1d (t.headD [])

/-- The numpy shape of a rank-3 array. -/
def shape3d (t : List (List (List ℚ))) : List ℕ := t.length :: shape2d (t.headD [])

/-- The numpy shape of a rank-4 array. -/
def shape4d (t : Tensor4) : List ℕ := t.length :: shape3d (t.headD [])

/-- The numpy shape of a rank-5 array (a list of rank-4 arrays, as produced
by `np.save` of `[tf_X]`). -/
def shape5d (t : List Tensor4) : List ℕ := t.length :: shape4d (t.headD [])

/-- Claim C10: the object persisted by `np.save` is not `X` itself but the
one-element list `[X]` returned by `sess.run([tf_X])`; for `tf_X` of shape
`(1, h, w, 3)` the stored array has shape `(1, 1, h, w, 3)` — an extra
leading singleton axis on top of `X`'s own batch axis — and in particular
not shape `(h, w, 3)`. -/
theorem npy_save_extra_leading_dim (x : Tensor4) (h w : ℕ)
    (hx : shape4d x = [1, h, w, 3]) :
    shape5d (sess_run_tf_X x) = [1, 1, h, w, 3] ∧
      shape5d (sess_run_tf_X x) ≠ [h, w, 3] := by
  have h5 : shape5d (sess_run_tf_X x) = 1 :: shape4d x := by
    simp [shape5d, sess_run_tf_X]
  rw [h5, hx]
  refine ⟨rfl, ?_⟩
  intro hEq
  have := congrArg List.length hEq
  simp at this

/-- Witness for C10: a concrete `1×1` RGB tensor of shape `(1, 1, 1, 3)` is
stored with shape `(1, 1, 1, 1, 3)`. -/
theorem npy_save_extra_leading_dim_witness :
    shape4d [[[[0, 0, 0]]]] = [1, 1, 1, 3] ∧
      (shape5d (sess_run_tf_X [[[[0, 0, 0]]]]) = [1, 1, 1, 1, 3] ∧
        shape5d (sess_run_tf_X [[[[0, 0, 0]]]]) ≠ [1, 1, 3]) :=
  ⟨by simp [shape4d, shape3d, shape2d, shape1d],
    npy_save_extra_leading_dim [[[[0, 0, 0]]]] 1 1 (by simp [shape4d, shape3d, shape2d, shape1d])⟩

end ElpipsAvg
